import Mathlib

/-!
Shallow embedding of the calculation engine of the Salary Tracker System
(`utils/salaryCalculations.js`) and of the live calculator of the
presentation layer (the `calculateRealTimeValues` closure of the `SalaryTracker`
React component), together with proofs of the claims of the specification.

JavaScript numbers are modelled by `JSNum`: a finite double idealised as a
rational, or one of the special values `NaN`, `Infinity`, `-Infinity`.
JavaScript values, as far as the typeof checks of the engine inspect them, are
modelled by `JSValue`.  Functions that `throw` are modelled in
`Except String`, carrying the exact message of the thrown `Error`.
-/

/-- Model of a JavaScript number: a finite value (idealised as a rational)
or one of the special values `NaN`, `Infinity`, `-Infinity`. -/
inductive JSNum : Type where
  | fin (q : ℚ)
  | nan
  | inf
  | ninf
deriving DecidableEq, Repr

/-- JavaScript `<` on numbers: any comparison involving `NaN` is `false`. -/
def JSNum.lt : JSNum → JSNum → Bool
  | .fin a, .fin b => decide (a < b)
  | .fin _, .inf => true
  | .ninf, .fin _ => true
  | .ninf, .inf => true
  | _, _ => false

/-- JavaScript `<=` on numbers: any comparison involving `NaN` is `false`. -/
def JSNum.le : JSNum → JSNum → Bool
  | .fin a, .fin b => decide (a ≤ b)
  | .fin _, .inf => true
  | .ninf, .fin _ => true
  | .ninf, .inf => true
  | .ninf, .ninf => true
  | .inf, .inf => true
  | _, _ => false

/-- JavaScript `>` on numbers. -/
def JSNum.gt (a b : JSNum) : Bool := JSNum.lt b a

/-- JavaScript `>=` on numbers. -/
def JSNum.ge (a b : JSNum) : Bool := JSNum.le b a

/-- JavaScript `===` on numbers; `NaN === NaN` is `false`. -/
def JSNum.eqb : JSNum → JSNum → Bool
  | .fin a, .fin b => decide (a = b)
  | .inf, .inf => true
  | .ninf, .ninf => true
  | _, _ => false

/-- JavaScript subtraction on numbers. -/
def JSNum.sub : JSNum → JSNum → JSNum
  | .fin a, .fin b => .fin (a - b)
  | .nan, _ => .nan
  | _, .nan => .nan
  | .inf, .inf => .nan
  | .ninf, .ninf => .nan
  | .inf, _ => .inf
  | .ninf, _ => .ninf
  | .fin _, .inf => .ninf
  | .fin _, .ninf => .inf

/-- JavaScript multiplication by the literal `100`. -/
def JSNum.mul100 : JSNum → JSNum
  | .fin a => .fin (a * 100)
  | .nan => .nan
  | .inf => .inf
  | .ninf => .ninf

/-- JavaScript division by the literal `100`. -/
def JSNum.div100 : JSNum → JSNum
  | .fin a => .fin (a / 100)
  | .nan => .nan
  | .inf => .inf
  | .ninf => .ninf

/-- Model of `Math.round`: round to the nearest integer, halves toward positive
infinity; `NaN` and the infinities are returned unchanged. -/
def JSNum.round : JSNum → JSNum
  | .fin a => .fin ((⌊a + 1 / 2⌋ : ℤ) : ℚ)
  | .nan => .nan
  | .inf => .inf
  | .ninf => .ninf

/-- Model of `Math.abs` on numbers. -/
def JSNum.abs : JSNum → JSNum
  | .fin a => .fin |a|
  | .nan => .nan
  | .inf => .inf
  | .ninf => .inf

/-- JavaScript division on numbers (the sign of zero is not modelled: a zero
divisor is taken as the `+0` case). -/
def JSNum.div : JSNum → JSNum → JSNum
  | .nan, _ => .nan
  | _, .nan => .nan
  | .inf, .inf => .nan
  | .inf, .ninf => .nan
  | .ninf, .inf => .nan
  | .ninf, .ninf => .nan
  | .inf, .fin b => if b < 0 then .ninf else .inf
  | .ninf, .fin b => if b < 0 then .inf else .ninf
  | .fin _, .inf => .fin 0
  | .fin _, .ninf => .fin 0
  | .fin a, .fin b =>
    if b = 0 then (if a = 0 then .nan else if a < 0 then .ninf else .inf)
    else .fin (a / b)

/-- Model of `Number.isFinite` restricted to numbers. -/
def JSNum.isFinite : JSNum → Bool
  | .fin _ => true
  | _ => false

/-- Model of a JavaScript value, as far as the typeof checks of the engine
inspect one. -/
inductive JSValue : Type where
  | num (n : JSNum)
  | str (s : String)
  | boolean (b : Bool)
  | nullV
  | undef
deriving DecidableEq, Repr

/-- Numeric view of a `JSValue`.  The engine only applies numeric operators
to a value after a `typeof`-gate or a `validateMonetaryAmount` call has
established that it is a number, so only the `.num` branch is ever
exercised; the other branches (the ToNumber coercion of JavaScript) are mapped
to `NaN`, which is sound for the dead paths they model. -/
def JSValue.asNum : JSValue → JSNum
  | .num n => n
  | _ => .nan

/-- Scale-round-unscale rule `round(x * 100) / 100` (round half-up on the
scaled value) on finite values, as the specification states it.  This is the
spec-side formula; the code-side computation is
`JSNum.div100 (JSNum.round (JSNum.mul100 x))`. -/
def roundMoney (x : ℚ) : ℚ := ((⌊x * 100 + 1 / 2⌋ : ℤ) : ℚ) / 100

/-- Body of `calculateRemainingSalary` after the `typeof` gate, with both
arguments known to be numbers: the three range checks, the subtraction and
the 2-decimal rounding (lines 22-36 of `utils/salaryCalculations.js`). -/
def calculateRemainingSalaryNum (totalMonthlySalary advanceAmountPaid : JSNum) :
    Except String JSNum :=
  if totalMonthlySalary.lt (.fin 0) then
    .error "Total monthly salary cannot be negative"
  else if advanceAmountPaid.lt (.fin 0) then
    .error "Advance amount paid cannot be negative"
  else if advanceAmountPaid.gt totalMonthlySalary then
    .error "Advance amount cannot exceed total monthly salary"
  else
    .ok (((totalMonthlySalary.sub advanceAmountPaid).mul100).round.div100)

/-- Function `calculateRemainingSalary`: the `typeof` check of lines 18-20, then the
numeric body. -/
def calculateRemainingSalary (totalMonthlySalary advanceAmountPaid : JSValue) :
    Except String JSNum :=
  match totalMonthlySalary, advanceAmountPaid with
  | .num t, .num a => calculateRemainingSalaryNum t a
  | _, _ => .error "Salary amounts must be numbers"

/-- Function `determinePaymentStatus` on number arguments: delegate to
`calculateRemainingSalaryNum` (propagating its failures), then classify by
the business rules of lines 57-66 of `utils/salaryCalculations.js`; the
final branch is the defensive `throw` of line 66. -/
def determinePaymentStatusNum (totalMonthlySalary advanceAmountPaid : JSNum) :
    Except String String :=
  (calculateRemainingSalaryNum totalMonthlySalary advanceAmountPaid).bind
    fun remainingSalary =>
      if remainingSalary.eqb (.fin 0) then .ok "Paid"
      else if advanceAmountPaid.gt (.fin 0) && remainingSalary.gt (.fin 0) then
        .ok "Partially Paid"
      else if advanceAmountPaid.eqb (.fin 0) then .ok "Pending"
      else .error "Unable to determine payment status with given inputs"

/-- Function `determinePaymentStatus` on arbitrary values.  In the source the
`typeof` error surfaces from the delegated `calculateRemainingSalary` call;
hoisting that gate to the wrapper is observationally identical, since for
non-number arguments the delegated call fails immediately with the same
message. -/
def determinePaymentStatus (totalMonthlySalary advanceAmountPaid : JSValue) :
    Except String String :=
  match totalMonthlySalary, advanceAmountPaid with
  | .num t, .num a => determinePaymentStatusNum t a
  | _, _ => .error "Salary amounts must be numbers"

/-- Function `validateMonetaryAmount` (lines 77-97 of `utils/salaryCalculations.js`):
`typeof` check, finiteness check, sign check, then the 2-decimal precision
check with a `0.001` tolerance.  The JavaScript default label for
`fieldName` (the string `amount`) is not modelled as a default argument;
callers pass the label explicitly. -/
def validateMonetaryAmount (amount : JSValue) (fieldName : String) :
    Except String Bool :=
  match amount with
  | .num n =>
    if !n.isFinite then .error (fieldName ++ " must be a finite number")
    else if n.lt (.fin 0) then .error (fieldName ++ " cannot be negative")
    else
      let rounded := (n.mul100).round.div100
      if ((n.sub rounded).abs).gt (.fin (1 / 1000)) then
        .error (fieldName ++ " must have at most 2 decimal places")
      else .ok true
  | _ => .error (fieldName ++ " must be a number")

/-- Function `validateAdvanceAmount` (lines 107-118): validate the total, then the
advance, then the exceeds-check.  The final comparison applies `>` to the
raw arguments, which the two successful validations have established to be
numbers. -/
def validateAdvanceAmount (totalMonthlySalary advanceAmountPaid : JSValue) :
    Except String Bool :=
  (validateMonetaryAmount totalMonthlySalary "Total monthly salary").bind fun _ =>
  (validateMonetaryAmount advanceAmountPaid "Advance amount paid").bind fun _ =>
  if (advanceAmountPaid.asNum).gt (totalMonthlySalary.asNum) then
    .error "Advance amount cannot exceed total monthly salary"
  else .ok true

/-- Function `calculateAdvancePercentage` (lines 173-182): validate, special-case a
zero total, otherwise compute `(advance / total) * 100` and round it to two
decimal places. -/
def calculateAdvancePercentage (totalMonthlySalary advanceAmountPaid : JSValue) :
    Except String JSNum :=
  (validateAdvanceAmount totalMonthlySalary advanceAmountPaid).bind fun _ =>
  if (totalMonthlySalary.asNum).eqb (.fin 0) then .ok (.fin 0)
  else
    let percentage := ((advanceAmountPaid.asNum).div (totalMonthlySalary.asNum)).mul100
    .ok ((percentage.mul100).round.div100)

/-- Function `isFullyPaid` (lines 191-194). -/
def isFullyPaid (totalMonthlySalary advanceAmountPaid : JSValue) :
    Except String Bool :=
  (calculateRemainingSalary totalMonthlySalary advanceAmountPaid).map
    fun remaining => remaining.eqb (.fin 0)

/-- Function `hasAdvancePayment` (lines 202-205). -/
def hasAdvancePayment (advanceAmountPaid : JSValue) : Except String Bool :=
  (validateMonetaryAmount advanceAmountPaid "Advance amount paid").map fun _ =>
    (advanceAmountPaid.asNum).gt (.fin 0)

/-- Comma insertion after every second digit of a reversed digit list: the
Indian grouping of the digits above the last three. -/
def indianGroupRev : List Char → List Char
  | [] => []
  | [a] => [a]
  | [a, b] => [a, b]
  | a :: b :: rest => a :: b :: ',' :: indianGroupRev rest

/-- Rendering of a finite number by
`toLocaleString` under the locale en-IN with minimumFractionDigits 2 and
maximumFractionDigits 2:
exactly two fraction digits (rounding half away from zero) and Indian digit
grouping (last three digits, then groups of two). -/
def toLocaleStringEnIN (q : ℚ) : String :=
  let cents : ℕ := (⌊|q| * 100 + 1 / 2⌋).toNat
  let ipStr : String := toString (cents / 100)
  let grouped : String :=
    if ipStr.length ≤ 3 then ipStr
    else
      ((indianGroupRev ((ipStr.dropRight 3).toList.reverse)).reverse).asString
        ++ "," ++ ipStr.takeRight 3
  let fp : ℕ := cents % 100
  (if q < 0 then "-" else "") ++ grouped ++ "."
    ++ (if fp < 10 then "0" else "") ++ toString fp

/-- Function `formatCurrency` (lines 158-164).  The guard — amount not
number-typed, or not finite — is exactly the complement of `amount`
matching `.num (.fin q)`. -/
def formatCurrency (amount : JSValue) (currency : String) : String :=
  match amount with
  | .num (.fin q) => currency ++ toLocaleStringEnIN q
  | _ => currency ++ "0.00"

/-- Function `formatCurrency` called with its default currency symbol. -/
def formatCurrencyDefault (amount : JSValue) : String :=
  formatCurrency amount "₹"

/-- The `calculateRealTimeValues` closure of the `SalaryTracker` React
component (lines 101-141), modelled from the point after the
`parseFloat(...) || 0` coercion of the two form fields; the result is the
pair passed to `setCalculatedValues`. -/
structure CalculatedValues where
  remainingSalary : JSNum
  paymentStatus : String
deriving DecidableEq, Repr

/-- Body of `calculateRealTimeValues`: the two validity guards, the raw
subtraction, the local status classification, and the rounded remaining
amount stored into state. -/
def calculateRealTimeValues (totalSalary advanceAmount : JSNum) :
    CalculatedValues :=
  if totalSalary.lt (.fin 0) || advanceAmount.lt (.fin 0) then
    { remainingSalary := .fin 0, paymentStatus := "Invalid" }
  else if advanceAmount.gt totalSalary then
    { remainingSalary := .fin 0, paymentStatus := "Invalid - Advance exceeds total" }
  else
    let remainingSalary := totalSalary.sub advanceAmount
    let paymentStatus :=
      if remainingSalary.eqb (.fin 0) && totalSalary.gt (.fin 0) then "Paid"
      else if advanceAmount.gt (.fin 0) && remainingSalary.gt (.fin 0) then
        "Partially Paid"
      else if advanceAmount.eqb (.fin 0) then "Pending"
      else "Pending"
    { remainingSalary := ((remainingSalary.mul100).round).div100
      paymentStatus := paymentStatus }

/-! Reduction lemmas for the JavaScript primitives on finite values. -/

theorem JSNum.lt_fin (a b : ℚ) : JSNum.lt (.fin a) (.fin b) = decide (a < b) := rfl

theorem JSNum.le_fin (a b : ℚ) : JSNum.le (.fin a) (.fin b) = decide (a ≤ b) := rfl

theorem JSNum.gt_fin (a b : ℚ) : JSNum.gt (.fin a) (.fin b) = decide (b < a) := rfl

theorem JSNum.eqb_fin (a b : ℚ) : JSNum.eqb (.fin a) (.fin b) = decide (a = b) := rfl

theorem JSNum.sub_fin (a b : ℚ) : JSNum.sub (.fin a) (.fin b) = .fin (a - b) := rfl

/-- The code-side chain `Math.round(x * 100) / 100` agrees with the
spec-side `roundMoney` on finite values. -/
theorem moneyChain_fin (q : ℚ) :
    ((JSNum.fin q).mul100).round.div100 = .fin (roundMoney q) := rfl

/-! Arithmetic facts about the scale-round-unscale rule. -/

theorem roundMoney_le (x : ℚ) : roundMoney x ≤ x + 1 / 200 := by
  unfold roundMoney
  have h : ((⌊x * 100 + 1 / 2⌋ : ℤ) : ℚ) ≤ x * 100 + 1 / 2 := Int.floor_le _
  linarith

theorem sub_lt_roundMoney (x : ℚ) : x - 1 / 200 < roundMoney x := by
  unfold roundMoney
  have h : x * 100 + 1 / 2 - 1 < ((⌊x * 100 + 1 / 2⌋ : ℤ) : ℚ) :=
    Int.sub_one_lt_floor _
  linarith

theorem roundMoney_nonneg (x : ℚ) (hx : 0 ≤ x) : 0 ≤ roundMoney x := by
  unfold roundMoney
  have h : (0 : ℤ) ≤ ⌊x * 100 + 1 / 2⌋ := Int.le_floor.mpr (by push_cast; linarith)
  have h2 : (0 : ℚ) ≤ ((⌊x * 100 + 1 / 2⌋ : ℤ) : ℚ) := by exact_mod_cast h
  linarith

theorem roundMoney_of_bounds (x : ℚ) (n : ℤ) (h1 : (n : ℚ) ≤ x * 100 + 1 / 2)
    (h2 : x * 100 + 1 / 2 < n + 1) : roundMoney x = (n : ℚ) / 100 := by
  unfold roundMoney
  rw [Int.floor_eq_iff.mpr ⟨h1, h2⟩]

/-- Amounts that are an integer count of minor units are fixed points of the
rounding rule. -/
theorem roundMoney_int (x : ℚ) (n : ℤ) (h : x * 100 = n) : roundMoney x = x := by
  unfold roundMoney
  rw [h, show ((n : ℚ) + 1 / 2) = ((n : ℚ) + 1 / 2) from rfl, Int.floor_int_add,
    show ⌊(1 / 2 : ℚ)⌋ = 0 from Int.floor_eq_iff.mpr (by norm_num)]
  have hx : x = (n : ℚ) / 100 := by
    field_simp
    linarith [h]
  rw [hx]
  push_cast
  ring

theorem one_div_hundred_le_roundMoney (x : ℚ) (h : 1 / 200 ≤ x) :
    1 / 100 ≤ roundMoney x := by
  unfold roundMoney
  have h1 : (1 : ℤ) ≤ ⌊x * 100 + 1 / 2⌋ := Int.le_floor.mpr (by push_cast; linarith)
  have h2 : (1 : ℚ) ≤ ((⌊x * 100 + 1 / 2⌋ : ℤ) : ℚ) := by exact_mod_cast h1
  linarith

/-! Symbolic evaluation of the engine on finite, range-valid inputs. -/

theorem calculateRemainingSalaryNum_fin (t a : ℚ) (ht : 0 ≤ t) (ha : 0 ≤ a)
    (hat : a ≤ t) :
    calculateRemainingSalaryNum (.fin t) (.fin a) = .ok (.fin (roundMoney (t - a))) := by
  have h1 : ¬ t < 0 := not_lt.mpr ht
  have h2 : ¬ a < 0 := not_lt.mpr ha
  have h3 : ¬ t < a := not_lt.mpr hat
  simp [calculateRemainingSalaryNum, JSNum.lt, JSNum.gt, JSNum.sub, JSNum.mul100,
    JSNum.round, JSNum.div100, roundMoney, h1, h2, h3]

theorem determinePaymentStatusNum_fin (t a : ℚ) (ht : 0 ≤ t) (ha : 0 ≤ a)
    (hat : a ≤ t) :
    determinePaymentStatusNum (.fin t) (.fin a) =
      if roundMoney (t - a) = 0 then .ok "Paid"
      else if 0 < a then .ok "Partially Paid"
      else .ok "Pending" := by
  have hR : 0 ≤ roundMoney (t - a) := roundMoney_nonneg _ (by linarith)
  unfold determinePaymentStatusNum
  rw [calculateRemainingSalaryNum_fin t a ht ha hat]
  show (if (JSNum.fin (roundMoney (t - a))).eqb (.fin 0) then _ else _) = _
  rw [JSNum.eqb_fin]
  by_cases hz : roundMoney (t - a) = 0
  · simp [hz]
  · have hpos : (0 : ℚ) < roundMoney (t - a) := lt_of_le_of_ne hR (Ne.symm hz)
    by_cases hA : 0 < a
    · simp [hz, hA, JSNum.gt_fin, hpos]
    · have ha0 : a = 0 := le_antisymm (not_lt.mp hA) ha
      simp [hz, hA, JSNum.gt_fin, JSNum.eqb_fin, ha0]

/-! Claim theorems. -/

/-- Claim C1 (amended): for finite numeric inputs with
`0 <= advance <= total`, `calculateRemainingSalary` returns
`round((total - advance) * 100) / 100` (round half-up on the scaled value),
the result lies in `[0, total + 0.005]` — and in `[0, total]` whenever both
inputs are an integer count of minor currency units (at most 2 decimal
places) — and repeated calls yield the identical result.  Both restrictions
are forced by the counterexample: a 3-decimal input overshoots `total`, and
a non-finite input produces `NaN`. -/
theorem calculateRemainingSalary_spec_amended (t a : ℚ) (ht : 0 ≤ t) (ha : 0 ≤ a)
    (hat : a ≤ t) :
    calculateRemainingSalaryNum (.fin t) (.fin a) = .ok (.fin (roundMoney (t - a))) ∧
    0 ≤ roundMoney (t - a) ∧
    roundMoney (t - a) ≤ t + 1 / 200 ∧
    ((∃ m : ℤ, t * 100 = (m : ℚ)) → (∃ n : ℤ, a * 100 = (n : ℚ)) →
      roundMoney (t - a) ≤ t) ∧
    calculateRemainingSalaryNum (.fin t) (.fin a) =
      calculateRemainingSalaryNum (.fin t) (.fin a) := by
  refine ⟨calculateRemainingSalaryNum_fin t a ht ha hat,
    roundMoney_nonneg _ (by linarith), ?_, ?_, rfl⟩
  · have h := roundMoney_le (t - a)
    linarith
  · rintro ⟨m, hm⟩ ⟨n, hn⟩
    have h : (t - a) * 100 = ((m - n : ℤ) : ℚ) := by push_cast; linarith
    rw [roundMoney_int _ _ h]
    linarith

/-- Claim C1 witness. -/
theorem calculateRemainingSalary_spec_amended_witness :
    calculateRemainingSalaryNum (.fin 5000) (.fin 2000) =
      .ok (.fin (roundMoney (5000 - 2000))) :=
  (calculateRemainingSalary_spec_amended 5000 2000 (by norm_num) (by norm_num)
    (by norm_num)).1

/-- Claim C1 counterexample, two concrete inputs.  First, the finite pair
`total = 0.006`, `advance = 0` satisfies the precondition of the claim, yet
the result `0.01` exceeds `total`, so the result does not lie in
`[0, total]`.  Second, the non-finite pair `total = advance = Infinity` is
number-typed and satisfies the JavaScript comparisons `total >= 0`,
`advance >= 0`, `advance <= total`, yet the result is `NaN`, which fails
even the comparison `result >= 0` — so any interval bound on the result
requires restricting the precondition to finite numbers. -/
theorem calculateRemainingSalary_interval_cx :
    (calculateRemainingSalaryNum (.fin (6 / 1000)) (.fin 0) = .ok (.fin (1 / 100)) ∧
     (0 : ℚ) ≤ 6 / 1000 ∧ (0 : ℚ) ≤ 0 ∧ (0 : ℚ) ≤ 6 / 1000 ∧
     ¬ ((1 / 100 : ℚ) ≤ 6 / 1000)) ∧
    (JSNum.ge .inf (.fin 0) = true ∧ JSNum.le .inf .inf = true ∧
     calculateRemainingSalaryNum .inf .inf = .ok .nan ∧
     JSNum.ge .nan (.fin 0) = false) := by
  refine ⟨⟨?_, by norm_num, le_refl 0, by norm_num, by norm_num⟩,
    rfl, rfl, rfl, rfl⟩
  rw [calculateRemainingSalaryNum_fin (6 / 1000) 0 (by norm_num) (le_refl 0)
    (by norm_num), show (6 / 1000 : ℚ) - 0 = 6 / 1000 from by norm_num,
    roundMoney_of_bounds (6 / 1000) 1 (by norm_num) (by norm_num)]
  norm_num

/-- Claim C2 (confirmed): for every pair satisfying the JavaScript
comparisons `total >= 0`, `advance >= 0`, `advance <= total`,
`determinePaymentStatus` returns `"Paid"` when the computed remaining
salary equals `0` (in particular at `total = 0`, `advance = 0`, where the
zero-remaining check fires first), else `"Partially Paid"` when
`advance > 0` and `remaining > 0`, else `"Pending"` when `advance == 0`. -/
theorem determinePaymentStatus_classification (t a : JSNum)
    (hget : JSNum.ge t (.fin 0) = true) (hgea : JSNum.ge a (.fin 0) = true)
    (hle : JSNum.le a t = true) :
    (∀ r : JSNum, calculateRemainingSalaryNum t a = .ok r →
      (r.eqb (.fin 0) = true → determinePaymentStatusNum t a = .ok "Paid") ∧
      (r.eqb (.fin 0) = false → a.gt (.fin 0) = true → r.gt (.fin 0) = true →
        determinePaymentStatusNum t a = .ok "Partially Paid") ∧
      (r.eqb (.fin 0) = false → (a.gt (.fin 0) && r.gt (.fin 0)) = false →
        a.eqb (.fin 0) = true → determinePaymentStatusNum t a = .ok "Pending")) ∧
    determinePaymentStatusNum (.fin 0) (.fin 0) = .ok "Paid" := by
  constructor
  · intro r hr
    refine ⟨fun h1 => ?_, fun h1 h2 h3 => ?_, fun h1 h2 h3 => ?_⟩ <;>
      · unfold determinePaymentStatusNum
        rw [hr]
        simp [Except.bind, h1, *]
  · rw [determinePaymentStatusNum_fin 0 0 (le_refl 0) (le_refl 0) (le_refl 0),
      show (0 : ℚ) - 0 = 0 from by norm_num, roundMoney_int 0 0 (by norm_num)]
    simp

/-- Claim C2 witness. -/
theorem determinePaymentStatus_classification_witness :
    determinePaymentStatusNum (.fin 0) (.fin 0) = .ok "Paid" :=
  (determinePaymentStatus_classification (.fin 0) (.fin 0) rfl rfl rfl).2

/-- Claim C3 (confirmed): for every valid pair (finite amounts with
`0 <= advance <= total`), `advance + calculateRemainingSalary(total,
advance)` equals `total` to within a tolerance of `0.01`. -/
theorem advance_plus_remaining_eq_total (t a : ℚ) (ht : 0 ≤ t) (ha : 0 ≤ a)
    (hat : a ≤ t) :
    ∀ r : ℚ, calculateRemainingSalaryNum (.fin t) (.fin a) = .ok (.fin r) →
      |a + r - t| ≤ 1 / 100 := by
  intro r hr
  rw [calculateRemainingSalaryNum_fin t a ht ha hat] at hr
  simp only [Except.ok.injEq, JSNum.fin.injEq] at hr
  have h1 := roundMoney_le (t - a)
  have h2 := sub_lt_roundMoney (t - a)
  rw [← hr, abs_le]
  constructor <;> linarith

/-- Claim C3 witness. -/
theorem advance_plus_remaining_eq_total_witness :
    |(2000 : ℚ) + 3000 - 5000| ≤ 1 / 100 :=
  advance_plus_remaining_eq_total 5000 2000 (by norm_num) (by norm_num)
    (by norm_num) 3000 (by
      rw [calculateRemainingSalaryNum_fin 5000 2000 (by norm_num) (by norm_num)
        (by norm_num), show (5000 : ℚ) - 2000 = 3000 from by norm_num,
        roundMoney_int 3000 300000 (by norm_num)])

/-- Claim C4 (amended): on valid pairs (`0 <= advance <= total`, finite) the
`calculateRealTimeValues` in the presentation layer and the engine compute the
identical rounded remaining amount; the status classifications coincide
whenever `total > 0` and the raw remainder `total - advance` is either `0`
or at least `0.005`. -/
theorem realTime_engine_agreement (t a : ℚ) (ha : 0 ≤ a) (hat : a ≤ t) :
    (calculateRealTimeValues (.fin t) (.fin a)).remainingSalary =
      .fin (roundMoney (t - a)) ∧
    calculateRemainingSalaryNum (.fin t) (.fin a) = .ok (.fin (roundMoney (t - a))) ∧
    (0 < t → (t - a = 0 ∨ 1 / 200 ≤ t - a) →
      determinePaymentStatusNum (.fin t) (.fin a) =
        .ok (calculateRealTimeValues (.fin t) (.fin a)).paymentStatus) := by
  have ht : 0 ≤ t := ha.trans hat
  have h1 : ¬ t < 0 := not_lt.mpr ht
  have h2 : ¬ a < 0 := not_lt.mpr ha
  have h3 : ¬ t < a := not_lt.mpr hat
  refine ⟨?_, calculateRemainingSalaryNum_fin t a ht ha hat, ?_⟩
  · simp [calculateRealTimeValues, JSNum.lt, JSNum.gt, JSNum.sub, JSNum.mul100,
      JSNum.round, JSNum.div100, roundMoney, h1, h2, h3]
  · intro htpos hcase
    rw [determinePaymentStatusNum_fin t a ht ha hat]
    rcases hcase with h0 | h0
    · rw [h0, roundMoney_int 0 0 (by norm_num), if_pos rfl]
      simp [calculateRealTimeValues, JSNum.lt, JSNum.gt, JSNum.sub, JSNum.eqb,
        h1, h2, h3, h0, htpos]
    · have hRpos : 1 / 100 ≤ roundMoney (t - a) := one_div_hundred_le_roundMoney _ h0
      have hround : ¬ roundMoney (t - a) = 0 := by linarith
      have hsubpos : 0 < t - a := by linarith
      have hsub : t - a ≠ 0 := ne_of_gt hsubpos
      rw [if_neg hround]
      by_cases hA : 0 < a
      · rw [if_pos hA]
        simp [calculateRealTimeValues, JSNum.lt, JSNum.gt, JSNum.sub, JSNum.eqb,
          h1, h2, h3, hsub, hsubpos, hA]
      · have ha0 : a = 0 := le_antisymm (not_lt.mp hA) ha
        subst ha0
        rw [if_neg hA]
        have htne : t ≠ 0 := by
          intro h
          rw [h] at hsubpos
          norm_num at hsubpos
        simp [calculateRealTimeValues, JSNum.lt, JSNum.gt, JSNum.sub, JSNum.eqb,
          h1, h2, h3, htne]

/-- Claim C4 witness. -/
theorem realTime_engine_agreement_witness :
    determinePaymentStatusNum (.fin 5000) (.fin 2000) =
      .ok (calculateRealTimeValues (.fin 5000) (.fin 2000)).paymentStatus :=
  (realTime_engine_agreement 5000 2000 (by norm_num) (by norm_num)).2.2
    (by norm_num) (Or.inr (by norm_num))

/-- Claim C4 counterexample: the UI and the engine are not behaviorally
identical on all valid pairs.  At `total = 0`, `advance = 0` the engine
classifies `"Paid"` while the UI shows `"Pending"`; at `total = 0.01`,
`advance = 0.008` the engine rounds the remainder to zero and classifies
`"Paid"` while the UI classifies the raw remainder as `"Partially Paid"`. -/
theorem realTime_engine_divergence_cx :
    determinePaymentStatusNum (.fin 0) (.fin 0) = .ok "Paid" ∧
    (calculateRealTimeValues (.fin 0) (.fin 0)).paymentStatus = "Pending" ∧
    (0 : ℚ) ≤ 8 / 1000 ∧ (8 / 1000 : ℚ) ≤ 1 / 100 ∧
    determinePaymentStatusNum (.fin (1 / 100)) (.fin (8 / 1000)) = .ok "Paid" ∧
    (calculateRealTimeValues (.fin (1 / 100)) (.fin (8 / 1000))).paymentStatus =
      "Partially Paid" := by
  refine ⟨?_, ?_, by norm_num, by norm_num, ?_, ?_⟩
  · rw [determinePaymentStatusNum_fin 0 0 (le_refl 0) (le_refl 0) (le_refl 0),
      show (0 : ℚ) - 0 = 0 from by norm_num, roundMoney_int 0 0 (by norm_num)]
    simp
  · simp [calculateRealTimeValues, JSNum.lt, JSNum.gt, JSNum.sub, JSNum.eqb]
  · rw [determinePaymentStatusNum_fin (1 / 100) (8 / 1000) (by norm_num)
      (by norm_num) (by norm_num),
      roundMoney_of_bounds (1 / 100 - 8 / 1000) 0 (by norm_num) (by norm_num)]
    norm_num
  · have hc : ¬ (1 / 100 : ℚ) - 8 / 1000 = 0 := by norm_num
    have hp : (0 : ℚ) < 1 / 100 - 8 / 1000 := by norm_num
    simp [calculateRealTimeValues, JSNum.lt, JSNum.gt, JSNum.sub, JSNum.eqb,
      hc, hp]
    norm_num

/-- Claim C5 (amended): under the precondition strengthened to finite
arguments — which every validated Monetary Amount satisfies —
`determinePaymentStatus` returns one of `"Paid"`, `"Partially Paid"`,
`"Pending"`, and the defensive UnclassifiableState branch is unreachable.
(Without finiteness the branch is reachable; see the counterexample.) -/
theorem determinePaymentStatus_total (t a : ℚ) (ht : 0 ≤ t) (ha : 0 ≤ a)
    (hat : a ≤ t) :
    (determinePaymentStatusNum (.fin t) (.fin a) = .ok "Paid" ∨
     determinePaymentStatusNum (.fin t) (.fin a) = .ok "Partially Paid" ∨
     determinePaymentStatusNum (.fin t) (.fin a) = .ok "Pending") ∧
    determinePaymentStatusNum (.fin t) (.fin a) ≠
      .error "Unable to determine payment status with given inputs" := by
  rw [determinePaymentStatusNum_fin t a ht ha hat]
  constructor
  · split_ifs <;> tauto
  · split_ifs <;> simp

/-- Claim C5 witness. -/
theorem determinePaymentStatus_total_witness :
    determinePaymentStatusNum (.fin 4000) (.fin 4000) ≠
      .error "Unable to determine payment status with given inputs" :=
  (determinePaymentStatus_total 4000 4000 (by norm_num) (by norm_num)
    (by norm_num)).2

/-- Claim C5 counterexample: `total = advance = Infinity` are numbers
satisfying the JavaScript comparisons `total >= 0`, `advance >= 0` and
`advance <= total`, yet `Infinity - Infinity` is `NaN`, no classification
branch matches, and the defensive UnclassifiableState `throw` fires. -/
theorem unclassifiableState_reachable_cx :
    JSNum.ge .inf (.fin 0) = true ∧ JSNum.le .inf .inf = true ∧
    determinePaymentStatusNum .inf .inf =
      .error "Unable to determine payment status with given inputs" :=
  ⟨rfl, rfl, rfl⟩

/-! Symbolic evaluation of the validation layer. -/

theorem validateMonetaryAmount_fin (q : ℚ) (f : String) :
    validateMonetaryAmount (.num (.fin q)) f =
      if q < 0 then .error (f ++ " cannot be negative")
      else if 1 / 1000 < |q - roundMoney q| then
        .error (f ++ " must have at most 2 decimal places")
      else .ok true := by
  simp [validateMonetaryAmount, JSNum.isFinite, JSNum.lt, JSNum.sub, JSNum.abs,
    JSNum.gt, JSNum.mul100, JSNum.round, JSNum.div100, roundMoney]

theorem validateMonetaryAmount_ok_of (q : ℚ) (f : String) (hq : 0 ≤ q)
    (hprec : |q - roundMoney q| ≤ 1 / 1000) :
    validateMonetaryAmount (.num (.fin q)) f = .ok true := by
  rw [validateMonetaryAmount_fin, if_neg (not_lt.mpr hq), if_neg (not_lt.mpr hprec)]

/-- Every outcome of `validateMonetaryAmount` is either the single success
value or one of its four labelled failure messages. -/
theorem validateMonetaryAmount_cases (v : JSValue) (f : String) :
    validateMonetaryAmount v f = .ok true ∨
    validateMonetaryAmount v f = .error (f ++ " must be a number") ∨
    validateMonetaryAmount v f = .error (f ++ " must be a finite number") ∨
    validateMonetaryAmount v f = .error (f ++ " cannot be negative") ∨
    validateMonetaryAmount v f = .error (f ++ " must have at most 2 decimal places") := by
  cases v with
  | num n =>
    cases n with
    | fin q =>
      rw [validateMonetaryAmount_fin]
      split_ifs <;> tauto
    | nan => right; right; left; rfl
    | inf => right; right; left; rfl
    | ninf => right; right; left; rfl
  | str s => right; left; rfl
  | boolean b => right; left; rfl
  | nullV => right; left; rfl
  | undef => right; left; rfl

theorem validateAdvanceAmount_total_error (tv av : JSValue) (m : String)
    (h : validateMonetaryAmount tv "Total monthly salary" = .error m) :
    validateAdvanceAmount tv av = .error m := by
  unfold validateAdvanceAmount
  rw [h]
  rfl

theorem validateAdvanceAmount_advance_error (tv av : JSValue) (b : Bool)
    (m : String)
    (h1 : validateMonetaryAmount tv "Total monthly salary" = .ok b)
    (h2 : validateMonetaryAmount av "Advance amount paid" = .error m) :
    validateAdvanceAmount tv av = .error m := by
  unfold validateAdvanceAmount
  rw [h1]
  show ((validateMonetaryAmount av "Advance amount paid").bind fun _ =>
    if (av.asNum).gt (tv.asNum) then
      Except.error "Advance amount cannot exceed total monthly salary"
    else Except.ok true) = Except.error m
  rw [h2]
  rfl

theorem validateAdvanceAmount_ok_ok (tv av : JSValue) (b c : Bool)
    (h1 : validateMonetaryAmount tv "Total monthly salary" = .ok b)
    (h2 : validateMonetaryAmount av "Advance amount paid" = .ok c) :
    validateAdvanceAmount tv av =
      if (av.asNum).gt (tv.asNum) then
        .error "Advance amount cannot exceed total monthly salary"
      else .ok true := by
  unfold validateAdvanceAmount
  rw [h1]
  show ((validateMonetaryAmount av "Advance amount paid").bind fun _ =>
    if (av.asNum).gt (tv.asNum) then
      Except.error "Advance amount cannot exceed total monthly salary"
    else Except.ok true) = _
  rw [h2]
  rfl

/-- Claim C6 (confirmed): `validateMonetaryAmount(amount, fieldLabel)`
succeeds (returning `true`) exactly when the amount is a finite number,
non-negative, and rounding it to the nearest `0.01` moves it by at most
`0.001`; otherwise it fails with the first matching failure in the order
NotANumber, NotFinite, Negative, ExcessPrecision, and every failure
message carries the field label. -/
theorem validateMonetaryAmount_spec (v : JSValue) (field : String) :
    (validateMonetaryAmount v field = .ok true ↔
      ∃ q : ℚ, v = .num (.fin q) ∧ 0 ≤ q ∧ |q - roundMoney q| ≤ 1 / 1000) ∧
    ((∀ n : JSNum, v ≠ .num n) →
      validateMonetaryAmount v field = .error (field ++ " must be a number")) ∧
    (∀ n : JSNum, v = .num n → n.isFinite = false →
      validateMonetaryAmount v field = .error (field ++ " must be a finite number")) ∧
    (∀ q : ℚ, v = .num (.fin q) → q < 0 →
      validateMonetaryAmount v field = .error (field ++ " cannot be negative")) ∧
    (∀ q : ℚ, v = .num (.fin q) → 0 ≤ q → 1 / 1000 < |q - roundMoney q| →
      validateMonetaryAmount v field =
        .error (field ++ " must have at most 2 decimal places")) ∧
    (∀ m : String, validateMonetaryAmount v field = .error m →
      ∃ rest : String, m = field ++ rest) := by
  refine ⟨⟨?_, ?_⟩, ?_, ?_, ?_, ?_, ?_⟩
  · intro h
    cases v with
    | num n =>
      cases n with
      | fin q =>
        rw [validateMonetaryAmount_fin] at h
        by_cases hneg : q < 0
        · rw [if_pos hneg] at h
          simp at h
        · rw [if_neg hneg] at h
          by_cases hprec : 1 / 1000 < |q - roundMoney q|
          · rw [if_pos hprec] at h
            simp at h
          · exact ⟨q, rfl, not_lt.mp hneg, not_lt.mp hprec⟩
      | nan => simp [validateMonetaryAmount, JSNum.isFinite] at h
      | inf => simp [validateMonetaryAmount, JSNum.isFinite] at h
      | ninf => simp [validateMonetaryAmount, JSNum.isFinite] at h
    | str s => simp [validateMonetaryAmount] at h
    | boolean b => simp [validateMonetaryAmount] at h
    | nullV => simp [validateMonetaryAmount] at h
    | undef => simp [validateMonetaryAmount] at h
  · rintro ⟨q, rfl, hq, hprec⟩
    exact validateMonetaryAmount_ok_of q field hq hprec
  · intro hn
    cases v with
    | num n => exact absurd rfl (hn n)
    | str s => rfl
    | boolean b => rfl
    | nullV => rfl
    | undef => rfl
  · rintro n rfl hfin
    cases n with
    | fin q => simp [JSNum.isFinite] at hfin
    | nan => rfl
    | inf => rfl
    | ninf => rfl
  · rintro q rfl hq
    rw [validateMonetaryAmount_fin, if_pos hq]
  · rintro q rfl hq hprec
    rw [validateMonetaryAmount_fin, if_neg (not_lt.mpr hq), if_pos hprec]
  · intro m hm
    rcases validateMonetaryAmount_cases v field with h | h | h | h | h
    · rw [h] at hm
      simp at hm
    · rw [h] at hm
      injection hm with h2
      exact ⟨" must be a number", h2.symm⟩
    · rw [h] at hm
      injection hm with h2
      exact ⟨" must be a finite number", h2.symm⟩
    · rw [h] at hm
      injection hm with h2
      exact ⟨" cannot be negative", h2.symm⟩
    · rw [h] at hm
      injection hm with h2
      exact ⟨" must have at most 2 decimal places", h2.symm⟩

/-- Claim C6 witness. -/
theorem validateMonetaryAmount_spec_witness :
    validateMonetaryAmount (.num (.fin 5000)) "amount" = .ok true :=
  (validateMonetaryAmount_spec (.num (.fin 5000)) "amount").1.mpr
    ⟨5000, rfl, by norm_num, by
      rw [roundMoney_int 5000 500000 (by norm_num)]
      norm_num⟩

/-- Claim C7 (confirmed): `validateAdvanceAmount(total, advance)` validates
the total (labeled "Total monthly salary"), then the advance (labeled
"Advance amount paid"), before ever comparing them; a negative total always
fails with the Negative failure on "Total monthly salary", never with
AdvanceExceedsTotal — even when `advance > total` also holds — and the
AdvanceExceedsTotal failure occurs exactly when both operands pass
`validateMonetaryAmount` and `advance > total`. -/
theorem validateAdvanceAmount_order_spec (tv av : JSValue) :
    (∀ m : String, validateMonetaryAmount tv "Total monthly salary" = .error m →
      validateAdvanceAmount tv av = .error m) ∧
    (∀ b : Bool, validateMonetaryAmount tv "Total monthly salary" = .ok b →
      ∀ m : String, validateMonetaryAmount av "Advance amount paid" = .error m →
      validateAdvanceAmount tv av = .error m) ∧
    (∀ q : ℚ, tv = .num (.fin q) → q < 0 →
      validateAdvanceAmount tv av = .error "Total monthly salary cannot be negative") ∧
    (validateAdvanceAmount tv av =
        .error "Advance amount cannot exceed total monthly salary" ↔
      validateMonetaryAmount tv "Total monthly salary" = .ok true ∧
      validateMonetaryAmount av "Advance amount paid" = .ok true ∧
      (av.asNum).gt (tv.asNum) = true) := by
  refine ⟨validateAdvanceAmount_total_error tv av,
    fun b h1 m h2 => validateAdvanceAmount_advance_error tv av b m h1 h2, ?_, ?_, ?_⟩
  · rintro q rfl hq
    apply validateAdvanceAmount_total_error
    rw [validateMonetaryAmount_fin, if_pos hq]
    rfl
  · intro h
    rcases validateMonetaryAmount_cases tv "Total monthly salary" with h1 | h1 | h1 | h1 | h1
    case inl =>
      rcases validateMonetaryAmount_cases av "Advance amount paid" with h2 | h2 | h2 | h2 | h2
      case inl =>
        rw [validateAdvanceAmount_ok_ok tv av true true h1 h2] at h
        cases hb : (av.asNum).gt (tv.asNum) with
        | true => exact ⟨h1, h2, rfl⟩
        | false =>
          rw [hb] at h
          simp at h
      all_goals
        rw [validateAdvanceAmount_advance_error tv av true _ h1 h2] at h
        injection h with h3
        exact absurd h3 (by decide)
    all_goals
      rw [validateAdvanceAmount_total_error tv av _ h1] at h
      injection h with h3
      exact absurd h3 (by decide)
  · rintro ⟨h1, h2, hgt⟩
    rw [validateAdvanceAmount_ok_ok tv av true true h1 h2, hgt]
    rfl

/-- Claim C7 witness: a negative total together with an advance exceeding it
is reported as the Negative failure on the label of the total. -/
theorem validateAdvanceAmount_order_witness :
    validateAdvanceAmount (.num (.fin (-5))) (.num (.fin 10)) =
      .error "Total monthly salary cannot be negative" :=
  (validateAdvanceAmount_order_spec (.num (.fin (-5))) (.num (.fin 10))).2.2.1
    (-5) rfl (by norm_num)

theorem validateAdvanceAmount_3000_1000 :
    validateAdvanceAmount (.num (.fin 3000)) (.num (.fin 1000)) = .ok true := by
  rw [validateAdvanceAmount_ok_ok _ _ true true
    (validateMonetaryAmount_ok_of 3000 _ (by norm_num)
      (by rw [roundMoney_int 3000 300000 (by norm_num)]; norm_num))
    (validateMonetaryAmount_ok_of 1000 _ (by norm_num)
      (by rw [roundMoney_int 1000 100000 (by norm_num)]; norm_num))]
  have hgt : (JSValue.asNum (.num (.fin 1000))).gt
      (JSValue.asNum (.num (.fin 3000))) = false := by
    simp only [JSValue.asNum, JSNum.gt, JSNum.lt, decide_eq_false_iff_not, not_lt]
    norm_num
  rw [hgt]
  rfl

theorem validateAdvanceAmount_0_0 :
    validateAdvanceAmount (.num (.fin 0)) (.num (.fin 0)) = .ok true := by
  rw [validateAdvanceAmount_ok_ok _ _ true true
    (validateMonetaryAmount_ok_of 0 _ (le_refl 0)
      (by rw [roundMoney_int 0 0 (by norm_num)]; norm_num))
    (validateMonetaryAmount_ok_of 0 _ (le_refl 0)
      (by rw [roundMoney_int 0 0 (by norm_num)]; norm_num))]
  have hgt : (JSValue.asNum (.num (.fin 0))).gt
      (JSValue.asNum (.num (.fin 0))) = false := by
    simp [JSValue.asNum, JSNum.gt, JSNum.lt]
  rw [hgt]
  rfl

/-- Claim C8 (confirmed): for every input pair passing validation,
`calculateAdvancePercentage(total, advance)` returns `0` when `total == 0`
(a defined edge case, not a failure) and otherwise
`round((advance / total) * 100 * 100) / 100`; in particular
`calculateAdvancePercentage(0, 0) == 0` and
`calculateAdvancePercentage(3000, 1000) == 33.33`. -/
theorem calculateAdvancePercentage_spec (t a : ℚ)
    (h : validateAdvanceAmount (.num (.fin t)) (.num (.fin a)) = .ok true) :
    calculateAdvancePercentage (.num (.fin t)) (.num (.fin a)) =
      .ok (.fin (if t = 0 then 0 else roundMoney (a / t * 100))) ∧
    calculateAdvancePercentage (.num (.fin 0)) (.num (.fin 0)) = .ok (.fin 0) ∧
    calculateAdvancePercentage (.num (.fin 3000)) (.num (.fin 1000)) =
      .ok (.fin (3333 / 100)) := by
  have hgen : ∀ t₀ a₀ : ℚ,
      validateAdvanceAmount (.num (.fin t₀)) (.num (.fin a₀)) = .ok true →
      calculateAdvancePercentage (.num (.fin t₀)) (.num (.fin a₀)) =
        .ok (.fin (if t₀ = 0 then 0 else roundMoney (a₀ / t₀ * 100))) := by
    intro t₀ a₀ h₀
    unfold calculateAdvancePercentage
    rw [h₀]
    show (if (JSNum.fin t₀).eqb (.fin 0) then Except.ok (JSNum.fin 0)
      else Except.ok (((((JSNum.fin a₀).div (.fin t₀)).mul100).mul100).round.div100)) = _
    by_cases ht0 : t₀ = 0
    · simp [JSNum.eqb, ht0]
    · simp [JSNum.eqb, JSNum.div, JSNum.mul100, JSNum.round, JSNum.div100,
        roundMoney, ht0]
  refine ⟨hgen t a h, ?_, ?_⟩
  · rw [hgen 0 0 validateAdvanceAmount_0_0]
    simp
  · rw [hgen 3000 1000 validateAdvanceAmount_3000_1000]
    rw [if_neg (by norm_num : ¬ (3000 : ℚ) = 0),
      roundMoney_of_bounds ((1000 : ℚ) / 3000 * 100) 3333 (by norm_num) (by norm_num)]
    norm_num

/-- Claim C8 witness. -/
theorem calculateAdvancePercentage_spec_witness :
    calculateAdvancePercentage (.num (.fin 3000)) (.num (.fin 1000)) =
      .ok (.fin (3333 / 100)) :=
  (calculateAdvancePercentage_spec 3000 1000 validateAdvanceAmount_3000_1000).2.2

/-- Claim C9 (confirmed): `formatCurrency(amount, symbol)` never fails:
whenever the amount is not a finite number (`NaN`, the infinities, or a
non-number value) it returns the string `symbol + "0.00"` — with the
default symbol, `"₹0.00"` — instead of failing. -/
theorem formatCurrency_fallback_spec (v : JSValue) (sym : String)
    (h : ∀ q : ℚ, v ≠ .num (.fin q)) :
    formatCurrency v sym = sym ++ "0.00" ∧
    formatCurrencyDefault (.num .nan) = "₹0.00" ∧
    formatCurrencyDefault (.num .inf) = "₹0.00" := by
  refine ⟨?_, rfl, rfl⟩
  cases v with
  | num n =>
    cases n with
    | fin q => exact absurd rfl (h q)
    | nan => rfl
    | inf => rfl
    | ninf => rfl
  | str s => rfl
  | boolean b => rfl
  | nullV => rfl
  | undef => rfl

/-- Claim C9 witness. -/
theorem formatCurrency_fallback_witness :
    formatCurrency (.num .nan) "Rs" = "Rs" ++ "0.00" :=
  (formatCurrency_fallback_spec (.num .nan) "Rs" (fun q hq => by simp at hq)).1

/-- Claim C10 (confirmed): `calculateRemainingSalary` checks only that its
arguments are number-typed, non-negative and ordered — it has no finiteness
and no 2-decimal precision check — so inputs that `validateMonetaryAmount`
rejects (`total = 100.123` or `total = Infinity`) still produce a value
instead of failing. -/
theorem calculateRemainingSalary_no_precision_check (t a : ℚ) (ha : 0 ≤ a)
    (hat : a ≤ t) :
    (∃ r : JSNum, calculateRemainingSalaryNum (.fin t) (.fin a) = .ok r) ∧
    calculateRemainingSalary (.num (.fin (100123 / 1000))) (.num (.fin 0)) =
      .ok (.fin (10012 / 100)) ∧
    validateMonetaryAmount (.num (.fin (100123 / 1000))) "amount" =
      .error "amount must have at most 2 decimal places" ∧
    calculateRemainingSalary (.num .inf) (.num (.fin 0)) = .ok .inf ∧
    validateMonetaryAmount (.num .inf) "amount" =
      .error "amount must be a finite number" := by
  have ht : 0 ≤ t := ha.trans hat
  have hround : roundMoney (100123 / 1000) = (10012 : ℚ) / 100 := by
    have h := roundMoney_of_bounds (100123 / 1000) 10012 (by norm_num) (by norm_num)
    rw [h]
    norm_num
  refine ⟨⟨_, calculateRemainingSalaryNum_fin t a ht ha hat⟩, ?_, ?_, rfl, rfl⟩
  · show calculateRemainingSalaryNum (.fin (100123 / 1000)) (.fin 0) = _
    rw [calculateRemainingSalaryNum_fin (100123 / 1000) 0 (by norm_num) (le_refl 0)
      (by norm_num), show (100123 / 1000 : ℚ) - 0 = 100123 / 1000 from by norm_num,
      hround]
  · have hprec : (1 : ℚ) / 1000 < |100123 / 1000 - roundMoney (100123 / 1000)| := by
      rw [hround, show (100123 / 1000 : ℚ) - 10012 / 100 = 3 / 1000 from by norm_num,
        abs_of_nonneg (by norm_num : (0 : ℚ) ≤ 3 / 1000)]
      norm_num
    rw [validateMonetaryAmount_fin, if_neg (by norm_num), if_pos hprec]
    rfl

/-- Claim C10 witness. -/
theorem calculateRemainingSalary_no_precision_check_witness :
    calculateRemainingSalary (.num (.fin (100123 / 1000))) (.num (.fin 0)) =
      .ok (.fin (10012 / 100)) :=
  (calculateRemainingSalary_no_precision_check (100123 / 1000) 0 (le_refl 0)
    (by norm_num)).2.1
